import Mathlib

/-!
Shallow embedding of the subscription lifecycle subsystem of
`backend/routers/subscriptions.py` (Scaff-SaaS), together with proofs of the
spec's claims about it.

Modelling conventions:
* The `user_subscriptions` table is a `List SubRow`; a supabase `insert`
  appends a row, `update(..).eq(col, v)` maps the update over every row whose
  column equals `v` (zero matching rows is a successful no-op, as in
  PostgREST), `.single()` succeeds only on exactly one row, `.limit(1)` takes
  the first row of whatever order the store returns (modelled by list order,
  since the query has no `order` clause).
* Python truthiness on an optional string (`if x:` where `x` is
  `dict.get(..)`) is `truthy`: `None` and the empty string are falsy.
* `datetime.utcnow().isoformat()` is modelled by a `now : Nat` parameter
  (ISO formatting is injective in the instant, so a numeric clock carries the
  same information); the timestamps stored in `current_period_start/_end` are
  likewise kept as the raw webhook payload integers.
* The database-generated primary key of an inserted row is a `freshId`
  parameter.
* Calls to the external payment provider (Stripe) are recorded in an
  `ExtCall` list; provider responses that the handler reads back
  (new customer id, checkout session id/url) come from a `CheckoutEnv`.
-/

namespace ScaffSaaS

/-- A row of the `user_subscriptions` table (columns used by the router).
Unset columns of an insert take the table defaults:
`cancel_at_period_end = false`, timestamps `NULL`. -/
structure SubRow where
  id : String
  user_id : String
  plan_id : String
  status : String
  current_period_start : Option Nat
  current_period_end : Option Nat
  cancel_at_period_end : Bool
  stripe_customer_id : Option String
  stripe_subscription_id : Option String
  canceled_at : Option Nat
deriving Repr, DecidableEq

/-- A row of the `subscription_plans` table (columns the checkout path reads). -/
structure Plan where
  id : String
  name : String
  stripe_price_id : Option String
deriving Repr, DecidableEq

/-- Python truthiness of an optional string: `None` and `""` are falsy. -/
def truthy : Option String → Bool
  | none => false
  | some s => s ≠ ""

/-- PostgREST `.single()`: succeeds exactly when the filtered result has one
row. -/
def singleRow {α : Type} : List α → Option α
  | [r] => some r
  | _ => none

/-- `table.update(f).eq(..)`: apply `f` to every row satisfying the filter,
leave the others untouched.  Zero matches is a successful no-op. -/
def updateWhere (p : SubRow → Bool) (f : SubRow → SubRow) : List SubRow → List SubRow
  | [] => []
  | r :: rest => (if p r then f r else r) :: updateWhere p f rest

/-- The verified Stripe webhook events the router dispatches on.
`checkoutCompleted` carries `session.metadata.get("user_id"/"plan_id")` and
`session.get("customer"/"subscription")`; `subscriptionUpdated` /
`subscriptionDeleted` carry the mandatory `subscription["id"]` and payload
fields; `invoicePaymentFailed` carries `invoice.get("subscription")`. -/
inductive StripeEvent where
  | checkoutCompleted (user_id plan_id customer subscription : Option String)
  | subscriptionUpdated (id : String) (status : String)
      (current_period_start current_period_end : Nat)
      (cancel_at_period_end : Bool)
  | subscriptionDeleted (id : String)
  | invoicePaymentFailed (subscription : Option String)
deriving Repr, DecidableEq

/-- Result of one webhook delivery: the store afterwards and the HTTP body
(`"success"` is the literal `{"status": "success"}` response). -/
structure WebhookResult where
  store : List SubRow
  response : String
deriving Repr, DecidableEq

/-- `stripe_webhook` (subscriptions.py lines 339-431), after signature
verification succeeded, on one event.  Faithful points: `checkout.session.completed`
performs a plain `insert` (no upsert, no duplicate check) guarded by Python
truthiness of both metadata fields; `updated`/`deleted` update by
`stripe_subscription_id` equality; `invoice.payment_failed` updates only when
the invoice carries a truthy subscription reference.  Every handled or
unhandled event type falls through to the `{"status": "success"}` return. -/
def stripeWebhook (now : Nat) (freshId : String) (event : StripeEvent)
    (store : List SubRow) : WebhookResult :=
  match event with
  | .checkoutCompleted user_id plan_id customer subscription =>
      if truthy user_id && truthy plan_id then
        { store := store ++ [{
            id := freshId
            user_id := user_id.getD ""
            plan_id := plan_id.getD ""
            status := "active"
            current_period_start := none
            current_period_end := none
            cancel_at_period_end := false
            stripe_customer_id := customer
            stripe_subscription_id := subscription
            canceled_at := none }]
          response := "success" }
      else
        { store := store, response := "success" }
  | .subscriptionUpdated sid status cps cpe cap =>
      { store := updateWhere (fun r => r.stripe_subscription_id == some sid)
          (fun r => { r with
            status := status
            current_period_start := some cps
            current_period_end := some cpe
            cancel_at_period_end := cap }) store
        response := "success" }
  | .subscriptionDeleted sid =>
      { store := updateWhere (fun r => r.stripe_subscription_id == some sid)
          (fun r => { r with status := "canceled", canceled_at := some now }) store
        response := "success" }
  | .invoicePaymentFailed subscription =>
      if truthy subscription then
        { store := updateWhere (fun r => r.stripe_subscription_id == subscription)
            (fun r => { r with status := "past_due" }) store
          response := "success" }
      else
        { store := store, response := "success" }

/-- A sequence of webhook deliveries, each with its own arrival time and
database-generated insert id. -/
def runEvents : List (Nat × String × StripeEvent) → List SubRow → List SubRow
  | [], store => store
  | (now, freshId, e) :: rest, store =>
      runEvents rest (stripeWebhook now freshId e store).store

/-- External provider (Stripe) calls the handlers issue, as the router issues
them: `create_customer(email, name, metadata={user_id})`,
`create_checkout_session(customer_id, price_id, success_url, cancel_url,
metadata={user_id, plan_id})`, `cancel_subscription(id, at_period_end)`. -/
inductive ExtCall where
  | createCustomer (email : String) (name : Option String) (metaUserId : String)
  | createSession (customer_id price_id success_url cancel_url
      metaUserId metaPlanId : String)
  | cancelSub (subscription_id : String) (at_period_end : Bool)
deriving Repr, DecidableEq

/-- HTTP outcome of an authenticated endpoint: a success body or an
`HTTPException(status, detail)`. -/
inductive ApiOutcome where
  | ok (message : String)
  | httpError (status : Nat) (detail : String)
deriving Repr, DecidableEq

/-- Result of a `/cancel` request: store afterwards, provider calls issued,
HTTP outcome. -/
structure CancelResult where
  store : List SubRow
  calls : List ExtCall
  outcome : ApiOutcome
deriving Repr, DecidableEq

/-- `cancel_my_subscription` (subscriptions.py lines 276-336).  Looks up the
single active row of the user; if it carries a truthy
`stripe_subscription_id`, cancels provider-side with
`at_period_end = not immediately` and updates the row: always
`cancel_at_period_end := not immediately` and `canceled_at := now`, plus
`status := "canceled"` only when `immediately`.  With no truthy reference the
provider call and the store update are both skipped.  Either way the success
message is returned. -/
def cancelMySubscription (now : Nat) (user_id : String) (immediately : Bool)
    (store : List SubRow) : CancelResult :=
  match singleRow (store.filter
      (fun r => r.user_id == user_id && r.status == "active")) with
  | none =>
      { store := store, calls := []
        outcome := .httpError 404 "アクティブなサブスクリプションが見つかりません" }
  | some sub =>
      if truthy sub.stripe_subscription_id then
        { store := updateWhere (fun r => r.id == sub.id)
            (fun r =>
              let updated := { r with
                cancel_at_period_end := !immediately
                canceled_at := some now }
              if immediately then { updated with status := "canceled" }
              else updated) store
          calls := [ExtCall.cancelSub (sub.stripe_subscription_id.getD "")
            (!immediately)]
          outcome := .ok "サブスクリプションをキャンセルしました" }
      else
        { store := store, calls := []
          outcome := .ok "サブスクリプションをキャンセルしました" }

/-- Provider responses the checkout path reads back: the id of a newly
created customer and the id/url of the created checkout session. -/
structure CheckoutEnv where
  newCustomerId : String
  sessionId : String
  sessionUrl : String
deriving Repr, DecidableEq

/-- HTTP outcome of `/create-checkout-session`. -/
inductive CheckoutOutcome where
  | ok (session_id url : String)
  | httpError (status : Nat) (detail : String)
deriving Repr, DecidableEq

/-- Result of a `/create-checkout-session` request. -/
structure CheckoutResult where
  store : List SubRow
  calls : List ExtCall
  outcome : CheckoutOutcome
deriving Repr, DecidableEq

/-- `create_subscription_checkout_session` (subscriptions.py lines 192-273).
Looks up the plan with `.single()`; 404 if absent; 400 (the free-tier
`PlanNotPurchasable` rejection) if the plan's `stripe_price_id` is not
truthy, before any provider call.  Then reads the user's subscription rows
with `.limit(1)`: if that single returned row has a truthy
`stripe_customer_id` it is reused, otherwise a new customer is created with
`metadata={"user_id": user_id}`.  Finally a checkout session is created with
`metadata={"user_id", "plan_id"}`.  No branch writes to the store. -/
def createSubscriptionCheckoutSession (user_id user_email : String)
    (user_name : Option String) (plan_id success_url cancel_url : String)
    (plans : List Plan) (store : List SubRow) (env : CheckoutEnv) :
    CheckoutResult :=
  match singleRow (plans.filter (fun p => p.id == plan_id)) with
  | none =>
      { store := store, calls := []
        outcome := .httpError 404 "プランが見つかりません" }
  | some plan =>
      if !truthy plan.stripe_price_id then
        { store := store, calls := []
          outcome := .httpError 400 "無料プランはCheckout Session不要です" }
      else
        match (store.filter (fun r => r.user_id == user_id)).take 1 with
        | first :: _ =>
            if truthy first.stripe_customer_id then
              { store := store
                calls := [ExtCall.createSession
                  (first.stripe_customer_id.getD "")
                  (plan.stripe_price_id.getD "")
                  success_url cancel_url user_id plan_id]
                outcome := .ok env.sessionId env.sessionUrl }
            else
              { store := store
                calls := [ExtCall.createCustomer user_email user_name user_id,
                  ExtCall.createSession env.newCustomerId
                  (plan.stripe_price_id.getD "")
                  success_url cancel_url user_id plan_id]
                outcome := .ok env.sessionId env.sessionUrl }
        | [] =>
            { store := store
              calls := [ExtCall.createCustomer user_email user_name user_id,
                ExtCall.createSession env.newCustomerId
                (plan.stripe_price_id.getD "")
                success_url cancel_url user_id plan_id]
              outcome := .ok env.sessionId env.sessionUrl }

/-! ### Helper lemmas -/

/-- An update whose filter matches no row leaves the table untouched. -/
theorem updateWhere_nomatch (p : SubRow → Bool) (f : SubRow → SubRow)
    (t : List SubRow) (h : ∀ r ∈ t, p r = false) : updateWhere p f t = t := by
  induction t with
  | nil => rfl
  | cons a rest ih =>
      simp [updateWhere, h a (List.mem_cons_self a rest),
        ih (fun r hr => h r (List.mem_cons_of_mem a hr))]

/-- Each row of the table lands in the updated table, updated iff it matches. -/
theorem updateWhere_mem (p : SubRow → Bool) (f : SubRow → SubRow)
    {t : List SubRow} {r : SubRow} (h : r ∈ t) :
    (if p r then f r else r) ∈ updateWhere p f t := by
  induction t with
  | nil => cases h
  | cons a rest ih =>
      rcases List.mem_cons.mp h with rfl | hmem
      · exact List.mem_cons_self _ _
      · exact List.mem_cons_of_mem _ (ih hmem)

/-- Updates neither add nor remove rows. -/
theorem updateWhere_length (p : SubRow → Bool) (f : SubRow → SubRow)
    (t : List SubRow) : (updateWhere p f t).length = t.length := by
  induction t with
  | nil => rfl
  | cons a rest ih => simp [updateWhere, ih]

/-- Every verified event, handled or not, reaches the final
`return {"status": "success"}` of the webhook route (no modelled store
operation raises; a zero-match update is a successful no-op). -/
theorem stripeWebhook_response (now : Nat) (freshId : String)
    (e : StripeEvent) (store : List SubRow) :
    (stripeWebhook now freshId e store).response = "success" := by
  cases e <;> simp only [stripeWebhook] <;> split <;> rfl

/-- The external subscription reference an event carries, if any. -/
def eventRef : StripeEvent → Option String
  | .checkoutCompleted _ _ _ subscription => subscription
  | .subscriptionUpdated sid _ _ _ _ => some sid
  | .subscriptionDeleted sid => some sid
  | .invoicePaymentFailed subscription => subscription

/-- The three reconciliation event kinds that mutate an existing row. -/
def isReconcileEvent : StripeEvent → Bool
  | .checkoutCompleted _ _ _ _ => false
  | .subscriptionUpdated _ _ _ _ _ => true
  | .subscriptionDeleted _ => true
  | .invoicePaymentFailed _ => true

/-- The event's subscription reference matches no stored row (an event that
carries no reference at all vacuously matches none). -/
@[reducible] def unknownRef (store : List SubRow) (e : StripeEvent) : Prop :=
  ∀ r ∈ store, r.stripe_subscription_id ≠ eventRef e ∨ eventRef e = none

/-- A reconciliation event whose reference matches no stored row leaves the
store unchanged. -/
theorem stripeWebhook_unknown_noop (now : Nat) (freshId : String)
    (e : StripeEvent) (store : List SubRow)
    (he : isReconcileEvent e = true) (hu : unknownRef store e) :
    (stripeWebhook now freshId e store).store = store := by
  cases e with
  | checkoutCompleted u p c s => simp [isReconcileEvent] at he
  | subscriptionUpdated sid status cps cpe cap =>
      show updateWhere _ _ store = store
      apply updateWhere_nomatch
      intro r hr
      rcases hu r hr with hne | habs
      · exact beq_eq_false_iff_ne.mpr hne
      · exact absurd habs (by simp [eventRef])
  | subscriptionDeleted sid =>
      show updateWhere _ _ store = store
      apply updateWhere_nomatch
      intro r hr
      rcases hu r hr with hne | habs
      · exact beq_eq_false_iff_ne.mpr hne
      · exact absurd habs (by simp [eventRef])
  | invoicePaymentFailed s =>
      cases htr : truthy s with
      | false => simp [stripeWebhook, htr]
      | true =>
          simp only [stripeWebhook, htr, if_true]
          apply updateWhere_nomatch
          intro r hr
          rcases hu r hr with hne | habs
          · exact beq_eq_false_iff_ne.mpr hne
          · cases s with
            | none => simp [truthy] at htr
            | some v => simp [eventRef] at habs

/-! ### Concrete fixtures used by counterexamples and witnesses -/

/-- The checkout-completed event of the spec's scenario: metadata
`{user_id: "u1", plan_id: "p1"}`, customer `cus_1`, subscription `sub_1`. -/
def completedEvt : StripeEvent :=
  .checkoutCompleted (some "u1") (some "p1") (some "cus_1") (some "sub_1")

/-- A subscription row for `sub_1` already cancelled at time 100. -/
def canceledRow : SubRow :=
  { id := "row1", user_id := "u1", plan_id := "p1", status := "canceled"
    current_period_start := none, current_period_end := none
    cancel_at_period_end := false, stripe_customer_id := some "cus_1"
    stripe_subscription_id := some "sub_1", canceled_at := some 100 }

/-- An active subscription row for user `u1` carrying provider references. -/
def activeRow : SubRow :=
  { id := "row1", user_id := "u1", plan_id := "p1", status := "active"
    current_period_start := some 1000, current_period_end := some 2000
    cancel_at_period_end := false, stripe_customer_id := some "cus_1"
    stripe_subscription_id := some "sub_1", canceled_at := none }

/-! ### Claims -/

/-- Claim C1.  The claim demands that replaying the same
`checkout.session.completed` event leave exactly one row for the external
subscription reference; the code performs a blind `insert`, so the replayed
event inserts a second row for `sub_1`.  This theorem evaluates the webhook
handler at the failing input: the same completion event delivered twice on an
initially empty store yields two rows referencing `sub_1`. -/
theorem c1_checkout_replay_inserts_second_row :
    ((stripeWebhook 200 "row2" completedEvt
        (stripeWebhook 100 "row1" completedEvt []).store).store.filter
      (fun r => r.stripe_subscription_id == some "sub_1")).length = 2 := by
  decide

/-- Claim C2, counterexample.  The claim says a second identical
`customer.subscription.deleted` event for `sub_1` leaves the already-cancelled
row unchanged in every field; but the handler re-runs the update and
overwrites `canceled_at` with the (later) processing time, so the row does
change. -/
theorem c2_second_delete_changes_the_row :
    canceledRow.status = "canceled" ∧ canceledRow.canceled_at = some 100 ∧
    (stripeWebhook 200 "row2" (.subscriptionDeleted "sub_1")
        [canceledRow]).store ≠ [canceledRow] := by
  decide

/-- Claim C2, amended.  Processing a second `customer.subscription.deleted`
event for a row already cancelled keeps its status `canceled` and every other
field unchanged except `canceled_at`, which is overwritten with the time of
the reprocessing; no row is added or removed and the handler still answers
success. -/
theorem c2_second_delete_refreshes_canceled_at (now : Nat)
    (freshId sid : String) (store : List SubRow) (r : SubRow)
    (hmem : r ∈ store) (hstat : r.status = "canceled")
    (href : r.stripe_subscription_id = some sid) :
    { r with canceled_at := some now } ∈
      (stripeWebhook now freshId (.subscriptionDeleted sid) store).store
    ∧ (stripeWebhook now freshId (.subscriptionDeleted sid) store).store.length
        = store.length
    ∧ (stripeWebhook now freshId (.subscriptionDeleted sid) store).response
        = "success" := by
  refine ⟨?_, updateWhere_length _ _ store, stripeWebhook_response _ _ _ store⟩
  have h := updateWhere_mem
    (fun row => row.stripe_subscription_id == some sid)
    (fun row => { row with status := "canceled", canceled_at := some now }) hmem
  have hguard : (r.stripe_subscription_id == some sid) = true := by
    simp [href]
  simp only [hguard, if_true] at h
  have heq : ({ r with status := "canceled", canceled_at := some now } : SubRow)
      = { r with canceled_at := some now } := by
    cases r
    simp_all
  show _ ∈ updateWhere _ _ store
  rw [← heq]
  exact h

/-- Closed instance of the amended C2 theorem: the cancelled `sub_1` row,
re-processed at time 200, reappears with only `canceled_at` refreshed. -/
theorem c2_second_delete_refreshes_canceled_at_witness :
    { canceledRow with canceled_at := some 200 } ∈
      (stripeWebhook 200 "row2" (.subscriptionDeleted "sub_1")
        [canceledRow]).store
    ∧ (stripeWebhook 200 "row2" (.subscriptionDeleted "sub_1")
        [canceledRow]).store.length = [canceledRow].length
    ∧ (stripeWebhook 200 "row2" (.subscriptionDeleted "sub_1")
        [canceledRow]).response = "success" :=
  c2_second_delete_refreshes_canceled_at 200 "row2" "sub_1" [canceledRow]
    canceledRow (List.mem_singleton.mpr rfl) rfl rfl

/-- A sequence of reconciliation events touching no stored row leaves the
store exactly as it was. -/
theorem runEvents_unknown_noop (ds : List (Nat × String × StripeEvent))
    (store : List SubRow)
    (h : ∀ d ∈ ds, isReconcileEvent d.2.2 = true ∧ unknownRef store d.2.2) :
    runEvents ds store = store := by
  induction ds with
  | nil => rfl
  | cons d rest ih =>
      obtain ⟨nw, fid, e⟩ := d
      have hd := h (nw, fid, e) (List.mem_cons_self _ _)
      rw [runEvents, stripeWebhook_unknown_noop nw fid e store hd.1 hd.2]
      exact ih (fun d hd2 => h d (List.mem_cons_of_mem _ hd2))

/-- Claim C3.  Any sequence of `customer.subscription.updated`,
`customer.subscription.deleted` and `invoice.payment_failed` deliveries whose
external subscription reference matches no stored row performs no store
write (the store is unchanged), and every such delivery is answered with the
success response rather than an error. -/
theorem c3_unknown_ref_events_are_noops
    (ds : List (Nat × String × StripeEvent)) (store : List SubRow)
    (h : ∀ d ∈ ds, isReconcileEvent d.2.2 = true ∧ unknownRef store d.2.2) :
    runEvents ds store = store
    ∧ ∀ d ∈ ds, (stripeWebhook d.1 d.2.1 d.2.2 store).response = "success" :=
  ⟨runEvents_unknown_noop ds store h,
   fun d _ => stripeWebhook_response d.1 d.2.1 d.2.2 store⟩

/-- A sequence of the three reconciliation event kinds, all referencing
`sub_x`, which no stored row carries. -/
def strayDeliveries : List (Nat × String × StripeEvent) :=
  [(100, "f1", .subscriptionUpdated "sub_x" "active" 1000 2000 false),
   (200, "f2", .subscriptionDeleted "sub_x"),
   (300, "f3", .invoicePaymentFailed (some "sub_x")),
   (400, "f4", .invoicePaymentFailed none)]

/-- Closed instance of C3: the stray `sub_x` deliveries leave the store
holding only the `sub_1` row untouched and each answers success. -/
theorem c3_unknown_ref_events_are_noops_witness :
    runEvents strayDeliveries [activeRow] = [activeRow]
    ∧ ∀ d ∈ strayDeliveries,
        (stripeWebhook d.1 d.2.1 d.2.2 [activeRow]).response = "success" :=
  c3_unknown_ref_events_are_noops strayDeliveries [activeRow] (by decide)

/-- A row returned alone by the active-subscription filter belongs to the
store and has status `active`. -/
theorem active_of_filter (uid : String) (store : List SubRow) (sub : SubRow)
    (hfilter : store.filter
      (fun r => r.user_id == uid && r.status == "active") = [sub]) :
    sub ∈ store ∧ sub.status = "active" := by
  have hmem : sub ∈ store.filter
      (fun r => r.user_id == uid && r.status == "active") := by
    rw [hfilter]
    exact List.mem_singleton.mpr rfl
  refine ⟨List.mem_of_mem_filter hmem, ?_⟩
  have hp := List.of_mem_filter hmem
  simp only [Bool.and_eq_true, beq_iff_eq] at hp
  exact hp.2

/-- On the single active row with a truthy external subscription reference,
`/cancel` takes the provider-call-and-update branch. -/
theorem cancelMySubscription_eq (now : Nat) (uid : String) (immediately : Bool)
    (store : List SubRow) (sub : SubRow)
    (hfilter : store.filter
      (fun r => r.user_id == uid && r.status == "active") = [sub])
    (href : truthy sub.stripe_subscription_id = true) :
    cancelMySubscription now uid immediately store =
      { store := updateWhere (fun r => r.id == sub.id)
          (fun r =>
            let updated := { r with
              cancel_at_period_end := !immediately
              canceled_at := some now }
            if immediately then { updated with status := "canceled" }
            else updated) store
        calls := [ExtCall.cancelSub (sub.stripe_subscription_id.getD "")
          (!immediately)]
        outcome := .ok "サブスクリプションをキャンセルしました" } := by
  unfold cancelMySubscription
  rw [hfilter]
  simp [singleRow, href]

/-- Claim C4.  On a user's single active row carrying an external
subscription reference, `cancel` with `immediately = false` writes back the
row with status still `active` and `cancel_at_period_end = true`, while
`cancel` with `immediately = true` writes it back with status `canceled` and
`canceled_at` set to now — both in the same synchronous operation, which also
returns the success message. -/
theorem c4_cancel_paths_set_expected_fields (now : Nat) (uid : String)
    (store : List SubRow) (sub : SubRow)
    (hfilter : store.filter
      (fun r => r.user_id == uid && r.status == "active") = [sub])
    (href : truthy sub.stripe_subscription_id = true) :
    ({ sub with cancel_at_period_end := true, canceled_at := some now } ∈
        (cancelMySubscription now uid false store).store
      ∧ ({ sub with cancel_at_period_end := true, canceled_at := some now
            }).status = "active"
      ∧ (cancelMySubscription now uid false store).outcome
          = .ok "サブスクリプションをキャンセルしました")
    ∧ ({ sub with status := "canceled", cancel_at_period_end := false, canceled_at := some now } ∈
        (cancelMySubscription now uid true store).store
      ∧ (cancelMySubscription now uid true store).outcome
          = .ok "サブスクリプションをキャンセルしました") := by
  obtain ⟨hmem, hstat⟩ := active_of_filter uid store sub hfilter
  have hguard : ((fun r => r.id == sub.id) sub) = true := by simp
  constructor
  · rw [cancelMySubscription_eq now uid false store sub hfilter href]
    refine ⟨?_, ?_, rfl⟩
    · have h := updateWhere_mem (fun r => r.id == sub.id)
        (fun r =>
          let updated := { r with
            cancel_at_period_end := !false
            canceled_at := some now }
          if false then { updated with status := "canceled" }
          else updated) hmem
      simp only [hguard, if_true] at h
      exact h
    · exact hstat
  · rw [cancelMySubscription_eq now uid true store sub hfilter href]
    refine ⟨?_, rfl⟩
    have h := updateWhere_mem (fun r => r.id == sub.id)
      (fun r =>
        let updated := { r with
          cancel_at_period_end := !true
          canceled_at := some now }
        if true then { updated with status := "canceled" }
        else updated) hmem
    simp only [hguard, if_true] at h
    exact h

/-- Closed instance of C4 on the concrete active `sub_1` row at time 500. -/
theorem c4_cancel_paths_set_expected_fields_witness :
    ({ activeRow with cancel_at_period_end := true, canceled_at := some 500 } ∈
        (cancelMySubscription 500 "u1" false [activeRow]).store
      ∧ ({ activeRow with cancel_at_period_end := true, canceled_at := some 500
            }).status = "active"
      ∧ (cancelMySubscription 500 "u1" false [activeRow]).outcome
          = .ok "サブスクリプションをキャンセルしました")
    ∧ ({ activeRow with status := "canceled", cancel_at_period_end := false, canceled_at := some 500 } ∈
        (cancelMySubscription 500 "u1" true [activeRow]).store
      ∧ (cancelMySubscription 500 "u1" true [activeRow]).outcome
          = .ok "サブスクリプションをキャンセルしました") :=
  c4_cancel_paths_set_expected_fields 500 "u1" [activeRow] activeRow
    (by decide) (by decide)

/-- Claim C8.  The end-of-period cancel path (`immediately = false`) also
stamps `canceled_at := now` (non-null) on the row, even though its status
stays `active`: the `update_data` dict always carries `canceled_at`. -/
theorem c8_period_end_cancel_stamps_canceled_at (now : Nat) (uid : String)
    (store : List SubRow) (sub : SubRow)
    (hfilter : store.filter
      (fun r => r.user_id == uid && r.status == "active") = [sub])
    (href : truthy sub.stripe_subscription_id = true) :
    { sub with cancel_at_period_end := true, canceled_at := some now } ∈
      (cancelMySubscription now uid false store).store
    ∧ ({ sub with cancel_at_period_end := true, canceled_at := some now
          }).canceled_at = some now
    ∧ ({ sub with cancel_at_period_end := true, canceled_at := some now
          }).status = "active" := by
  obtain ⟨hmem, hstat⟩ := active_of_filter uid store sub hfilter
  have hguard : ((fun r => r.id == sub.id) sub) = true := by simp
  refine ⟨?_, rfl, hstat⟩
  rw [cancelMySubscription_eq now uid false store sub hfilter href]
  have h := updateWhere_mem (fun r => r.id == sub.id)
    (fun r =>
      let updated := { r with
        cancel_at_period_end := !false
        canceled_at := some now }
      if false then { updated with status := "canceled" }
      else updated) hmem
  simp only [hguard, if_true] at h
  exact h

/-- Closed instance of C8 on the concrete active `sub_1` row at time 700. -/
theorem c8_period_end_cancel_stamps_canceled_at_witness :
    { activeRow with cancel_at_period_end := true, canceled_at := some 700 } ∈
      (cancelMySubscription 700 "u1" false [activeRow]).store
    ∧ ({ activeRow with cancel_at_period_end := true, canceled_at := some 700
          }).canceled_at = some 700
    ∧ ({ activeRow with cancel_at_period_end := true, canceled_at := some 700
          }).status = "active" :=
  c8_period_end_cancel_stamps_canceled_at 700 "u1" [activeRow] activeRow
    (by decide) (by decide)

/-- Claim C9.  When the user's single active row carries no (truthy) external
subscription reference, `cancel` issues no provider call, writes nothing to
the store (it is unchanged), and still returns the success message. -/
theorem c9_cancel_without_ref_is_pure (now : Nat) (uid : String)
    (immediately : Bool) (store : List SubRow) (sub : SubRow)
    (hfilter : store.filter
      (fun r => r.user_id == uid && r.status == "active") = [sub])
    (hnoref : truthy sub.stripe_subscription_id = false) :
    (cancelMySubscription now uid immediately store).store = store
    ∧ (cancelMySubscription now uid immediately store).calls = []
    ∧ (cancelMySubscription now uid immediately store).outcome
        = .ok "サブスクリプションをキャンセルしました" := by
  unfold cancelMySubscription
  rw [hfilter]
  simp [singleRow, hnoref]

/-- An active subscription row that never got provider references attached. -/
def refLessActiveRow : SubRow :=
  { id := "row9", user_id := "u9", plan_id := "p1", status := "active"
    current_period_start := none, current_period_end := none
    cancel_at_period_end := false, stripe_customer_id := none
    stripe_subscription_id := none, canceled_at := none }

/-- Closed instance of C9 on the reference-less active row. -/
theorem c9_cancel_without_ref_is_pure_witness :
    (cancelMySubscription 600 "u9" true [refLessActiveRow]).store
        = [refLessActiveRow]
    ∧ (cancelMySubscription 600 "u9" true [refLessActiveRow]).calls = []
    ∧ (cancelMySubscription 600 "u9" true [refLessActiveRow]).outcome
        = .ok "サブスクリプションをキャンセルしました" :=
  c9_cancel_without_ref_is_pure 600 "u9" true [refLessActiveRow]
    refLessActiveRow (by decide) (by decide)

/-- A purchasable plan with an external price reference. -/
def proPlan : Plan :=
  { id := "p1", name := "プロプラン", stripe_price_id := some "price_123" }

/-- The free-tier plan: no external price reference. -/
def freePlan : Plan :=
  { id := "p0", name := "フリープラン", stripe_price_id := none }

/-- Provider responses used by the concrete checkout scenarios. -/
def env0 : CheckoutEnv :=
  { newCustomerId := "cus_new", sessionId := "cs_1"
    sessionUrl := "https://checkout.stripe.example/cs_1" }

/-- A row of user `u1` that carries no external customer reference. -/
def rowNoCust : SubRow :=
  { id := "rowA", user_id := "u1", plan_id := "p1", status := "canceled"
    current_period_start := none, current_period_end := none
    cancel_at_period_end := false, stripe_customer_id := none
    stripe_subscription_id := none, canceled_at := some 50 }

/-- Claim C5, counterexample.  The claim says an existing row carrying an
external customer reference is always reused and no new customer is created;
but the handler reads only the first row the store returns (`limit(1)`).
Here `u1` has two rows, the first without a customer reference and the second
with `cus_1`: a row of the user carries a reference, yet the handler still
issues a `create_customer` call. -/
theorem c5_limit_one_misses_later_customer_ref :
    (∃ r ∈ [rowNoCust, activeRow], truthy r.stripe_customer_id = true)
    ∧ ExtCall.createCustomer "u1@example.com" none "u1" ∈
        (createSubscriptionCheckoutSession "u1" "u1@example.com" none "p1"
          "https://ok" "https://ng" [proPlan] [rowNoCust, activeRow]
          env0).calls := by
  decide

/-- Claim C5, amended.  The handler inspects only the first subscription row
the store returns for the user (`limit(1)`): if that row carries a truthy
external customer reference it is reused and the only provider calls are the
session creation; otherwise — even if a later row carries a reference — a new
external customer is created, tagged with the internal user id as metadata,
before the session call. -/
theorem c5_first_row_decides_customer_reuse (uid email : String)
    (name : Option String) (pid surl curl : String) (plans : List Plan)
    (store : List SubRow) (env : CheckoutEnv) (plan : Plan) (first : SubRow)
    (hplan : singleRow (plans.filter (fun p => p.id == pid)) = some plan)
    (hprice : truthy plan.stripe_price_id = true)
    (hfirst : (store.filter (fun r => r.user_id == uid)).take 1 = [first]) :
    (truthy first.stripe_customer_id = true →
      (createSubscriptionCheckoutSession uid email name pid surl curl plans
          store env).calls
        = [ExtCall.createSession (first.stripe_customer_id.getD "")
            (plan.stripe_price_id.getD "") surl curl uid pid])
    ∧ (truthy first.stripe_customer_id = false →
      (createSubscriptionCheckoutSession uid email name pid surl curl plans
          store env).calls
        = [ExtCall.createCustomer email name uid,
           ExtCall.createSession env.newCustomerId
            (plan.stripe_price_id.getD "") surl curl uid pid]) := by
  unfold createSubscriptionCheckoutSession
  rw [hplan, hfirst]
  simp only [hprice, Bool.not_true, Bool.false_eq_true, if_false]
  constructor
  · intro hcust
    simp [hcust]
  · intro hcust
    simp [hcust]

/-- Closed instance of the amended C5 theorem: `u1`'s first (and only) row
carries `cus_1`, so it is reused and no customer-creation call is issued. -/
theorem c5_first_row_decides_customer_reuse_witness :
    (truthy activeRow.stripe_customer_id = true →
      (createSubscriptionCheckoutSession "u1" "u1@example.com" none "p1"
          "https://ok" "https://ng" [proPlan] [activeRow] env0).calls
        = [ExtCall.createSession (activeRow.stripe_customer_id.getD "")
            (proPlan.stripe_price_id.getD "") "https://ok" "https://ng"
            "u1" "p1"])
    ∧ (truthy activeRow.stripe_customer_id = false →
      (createSubscriptionCheckoutSession "u1" "u1@example.com" none "p1"
          "https://ok" "https://ng" [proPlan] [activeRow] env0).calls
        = [ExtCall.createCustomer "u1@example.com" none "u1",
           ExtCall.createSession env0.newCustomerId
            (proPlan.stripe_price_id.getD "") "https://ok" "https://ng"
            "u1" "p1"]) :=
  c5_first_row_decides_customer_reuse "u1" "u1@example.com" none "p1"
    "https://ok" "https://ng" [proPlan] [activeRow] env0 proPlan activeRow
    (by decide) (by decide) (by decide)

/-- Claim C6.  A plan without an external price reference (free tier) is
rejected with the 400 `PlanNotPurchasable` error before any provider call:
the call list is empty. -/
theorem c6_free_plan_rejected_without_provider_calls (uid email : String)
    (name : Option String) (pid surl curl : String) (plans : List Plan)
    (store : List SubRow) (env : CheckoutEnv) (plan : Plan)
    (hplan : singleRow (plans.filter (fun p => p.id == pid)) = some plan)
    (hfree : truthy plan.stripe_price_id = false) :
    (createSubscriptionCheckoutSession uid email name pid surl curl plans
        store env).outcome
      = .httpError 400 "無料プランはCheckout Session不要です"
    ∧ (createSubscriptionCheckoutSession uid email name pid surl curl plans
        store env).calls = [] := by
  unfold createSubscriptionCheckoutSession
  rw [hplan]
  simp [hfree]

/-- Closed instance of C6 on the free plan. -/
theorem c6_free_plan_rejected_without_provider_calls_witness :
    (createSubscriptionCheckoutSession "u1" "u1@example.com" none "p0"
        "https://ok" "https://ng" [freePlan] [activeRow] env0).outcome
      = .httpError 400 "無料プランはCheckout Session不要です"
    ∧ (createSubscriptionCheckoutSession "u1" "u1@example.com" none "p0"
        "https://ok" "https://ng" [freePlan] [activeRow] env0).calls = [] :=
  c6_free_plan_rejected_without_provider_calls "u1" "u1@example.com" none
    "p0" "https://ok" "https://ng" [freePlan] [activeRow] env0 freePlan
    (by decide) (by decide)

/-- Claim C7.  For every input and every outcome — plan not found, free plan
rejected, customer reused or newly created — `/create-checkout-session`
performs no write to the subscription store: the store after the call is the
store before it. -/
theorem c7_checkout_never_writes_store (uid email : String)
    (name : Option String) (pid surl curl : String) (plans : List Plan)
    (store : List SubRow) (env : CheckoutEnv) :
    (createSubscriptionCheckoutSession uid email name pid surl curl plans
        store env).store = store := by
  unfold createSubscriptionCheckoutSession
  split
  · rfl
  · split
    · rfl
    · split
      · split <;> rfl
      · rfl

/-- Claim C10.  A verified `checkout.session.completed` event whose session
metadata lacks `user_id` or `plan_id` inserts no row and performs no store
write, and the webhook still answers success. -/
theorem c10_missing_metadata_skips_insert (now : Nat) (freshId : String)
    (user_id plan_id customer subscription : Option String)
    (store : List SubRow) (h : user_id = none ∨ plan_id = none) :
    (stripeWebhook now freshId
        (.checkoutCompleted user_id plan_id customer subscription)
        store).store = store
    ∧ (stripeWebhook now freshId
        (.checkoutCompleted user_id plan_id customer subscription)
        store).response = "success" := by
  rcases h with rfl | rfl <;>
    simp [stripeWebhook, truthy]

/-- Closed instance of C10: a completed-checkout event with no `user_id`
metadata leaves the store unchanged and answers success. -/
theorem c10_missing_metadata_skips_insert_witness :
    (stripeWebhook 100 "rowX"
        (.checkoutCompleted none (some "p1") (some "cus_9") (some "sub_9"))
        [activeRow]).store = [activeRow]
    ∧ (stripeWebhook 100 "rowX"
        (.checkoutCompleted none (some "p1") (some "cus_9") (some "sub_9"))
        [activeRow]).response = "success" :=
  c10_missing_metadata_skips_insert 100 "rowX" none (some "p1")
    (some "cus_9") (some "sub_9") [activeRow] (Or.inl rfl)

end ScaffSaaS
